import Mathlib

/-!
Shallow embedding of the application-lifecycle supervisor
(`applications/services/loader/loader.c` of the Momentum firmware) and proofs
of the specification's testable properties about it.

The dispatcher's mutable state (`Loader` in `loader_i.h`) is modelled as an
explicit `LoaderState` record; the read-only collaborators (application
registries, storage existence checks, dynamic-binary loading results, the
user dialog answer) are collected in a `LoaderEnv` record.  The command
handlers `loader_do_*` and the load pipeline `loader_start_external_app`
become pure functions from environment and state to result and new state.
-/

set_option maxHeartbeats 1000000
set_option linter.unusedVariables false

/-- Loader status codes (`LoaderStatus` in `loader.h`). -/
inductive LoaderStatus where
  | ok
  | errorAppStarted
  | errorUnknownApp
  | errorInternal
  deriving DecidableEq, Repr

/-- Detailed error kinds (`LoaderStatusError` in `loader.h`); only meaningful
when the status is `errorInternal` (or the deliberate decline case). -/
inductive LoaderStatusError where
  | unknown
  | invalidFile
  | invalidManifest
  | missingImports
  | hwMismatch
  | outdatedApp
  | outdatedFirmware
  | outOfMemory
  deriving DecidableEq, Repr

/-- Preload outcomes of the dynamic-binary loader
(`FlipperApplicationPreloadStatus` in `flipper_application.h`). -/
inductive FlipperApplicationPreloadStatus where
  | success
  | unspecifiedError
  | invalidFile
  | invalidManifest
  | notEnoughMemory
  | apiTooOld
  | apiTooNew
  | targetMismatch
  deriving DecidableEq, Repr

/-- Mapping/linking outcomes of the dynamic-binary loader
(`FlipperApplicationLoadStatus` in `flipper_application.h`). -/
inductive FlipperApplicationLoadStatus where
  | success
  | unspecifiedError
  | noFreeMemory
  | missingImports
  deriving DecidableEq, Repr

/-- Capability flags of an application (`FlipperApplicationFlag`); the loader
only inspects the insomnia-safe bit. -/
structure FlipperApplicationFlag where
  insomniaSafe : Bool
  deriving DecidableEq, Repr

/-- `FlipperApplicationFlagDefault` (no bits set). -/
def FlipperApplicationFlag.default : FlipperApplicationFlag :=
  { insomniaSafe := false }

/-- A built-in registry entry (`FlipperInternalApplication`): display name,
stable identifier, icon pointer (possibly NULL) and capability flags. -/
structure FlipperInternalApplication where
  name : String
  appid : String
  icon : Option Nat
  flags : FlipperApplicationFlag
  deriving DecidableEq, Repr

/-- A registered external-app alias (rows of `FLIPPER_EXTERNAL_APPS` /
`FLIPPER_SETTINGS_APPS`): name, filesystem path, icon pointer, flags. -/
structure FlipperExternalApp where
  name : String
  path : String
  icon : Option Nat
  flags : FlipperApplicationFlag
  deriving DecidableEq, Repr

/-- The loader's `app.thread` field: `NULL`, the magic sentinel
`LOADER_MAGIC_THREAD_VALUE` (administratively locked, no thread), or a real
application thread carrying its thread name. -/
inductive ThreadSlot where
  | nullThread
  | magicThread
  | appThread (name : String)
  deriving DecidableEq, Repr

/-- Lifecycle events broadcast on the loader pubsub (`LoaderEventType`). -/
inductive LoaderEvent where
  | applicationBeforeLoad
  | applicationLoadFailed
  | applicationStopped
  deriving DecidableEq, Repr

/-- Mutable loader state owned by the dispatcher thread (the `Loader` struct):
the running-app bookkeeping plus the process-wide insomnia counter (modelled
explicitly so that acquire/release balance can be stated) and the list of
events published so far. -/
structure LoaderState where
  thread : ThreadSlot
  args : Option String
  insomniac : Bool
  fap : Option String
  heapTrace : Bool
  insomniaCount : Nat
  events : List LoaderEvent
  loaderMenu : Bool
  loaderApplications : Bool
  deriving Repr

/-- Read-only collaborators of the loader: the compiled-in registries, the
storage existence oracle, the dynamic-binary loading interface results per
path, the user's answer to the version-arbitration dialog, and auxiliary
startup data. -/
structure LoaderEnv where
  flipperApps : List FlipperInternalApplication
  systemApps : List FlipperInternalApplication
  debugApps : List FlipperInternalApplication
  externalApps : List FlipperExternalApp
  settingsApps : List FlipperExternalApp
  storageFiles : List String
  applicationsName : String
  heapTrackMode : Nat
  preload : String → FlipperApplicationPreloadStatus
  mapToMemory : String → FlipperApplicationLoadStatus
  isPlugin : String → Bool
  threadName : String → String
  fapMeta : String → Option String
  dialogContinue : Bool
  xtremeAppsLines : List String
  preloadStatusToString : FlipperApplicationPreloadStatus → String
  loadStatusToString : FlipperApplicationLoadStatus → String

/-- Result of a start request: status value, error kind, the error-message
buffer contents, and the state after handling. -/
structure StartResult where
  value : LoaderStatus
  error : LoaderStatusError
  message : String
  state : LoaderState
  deriving Repr

/-- `loader_status_error_from_preload_status` (loader.c:593-611). -/
def loader_status_error_from_preload_status
    (status : FlipperApplicationPreloadStatus) : LoaderStatusError :=
  match status with
  | .invalidFile => .invalidFile
  | .notEnoughMemory => .outOfMemory
  | .invalidManifest => .invalidManifest
  | .apiTooOld => .outdatedApp
  | .apiTooNew => .outdatedFirmware
  | .targetMismatch => .hwMismatch
  | _ => .unknown

/-- `loader_status_error_from_load_status` (loader.c:613-621). -/
def loader_status_error_from_load_status
    (status : FlipperApplicationLoadStatus) : LoaderStatusError :=
  match status with
  | .missingImports => .missingImports
  | _ => .unknown

/-- `loader_do_is_locked` (loader.c:771-773): the slot is considered locked
iff the thread field is non-NULL. -/
def loader_do_is_locked (s : LoaderState) : Bool :=
  s.thread ≠ .nullThread

/-- `loader_do_lock` (loader.c:853-860): fails if a thread (real or sentinel)
occupies the slot; otherwise stores the magic sentinel. -/
def loader_do_lock (s : LoaderState) : Bool × LoaderState :=
  match s.thread with
  | .nullThread => (true, { s with thread := .magicThread })
  | _ => (false, s)

/-- `loader_do_unlock` (loader.c:862-865): `furi_check` that the slot holds
the magic sentinel (modelled as `none` on contract violation), then clear. -/
def loader_do_unlock (s : LoaderState) : Option LoaderState :=
  match s.thread with
  | .magicThread => some { s with thread := .nullThread }
  | _ => none

/-- `loader_is_application_running` (loader.c:898-901). -/
def loader_is_application_running (s : LoaderState) : Bool :=
  match s.thread with
  | .appThread _ => true
  | _ => false

/-- `loader_start_app_thread` (loader.c:513-536): heap-trace toggle, insomnia
acquisition with ownership recording, then thread start. -/
def loader_start_app_thread (env : LoaderEnv) (s : LoaderState)
    (flags : FlipperApplicationFlag) : LoaderState :=
  let s := { s with heapTrace := env.heapTrackMode > 0 }
  if ¬ flags.insomniaSafe then
    { s with insomniaCount := s.insomniaCount + 1, insomniac := true }
  else
    { s with insomniac := false }

/-- `loader_do_app_closed` (loader.c:867-896): join the thread, free args,
release the insomnia hold iff owned, free the binary, clear the slot, publish
`Stopped`.  (`furi_assert(loader->app.thread)` is compiled out in release
builds; the function is modelled totally.) -/
def loader_do_app_closed (s : LoaderState) : LoaderState :=
  let s := { s with args := none }
  let s :=
    if s.insomniac then { s with insomniaCount := s.insomniaCount - 1 } else s
  let s := { s with fap := none, thread := .nullThread }
  { s with events := s.events ++ [.applicationStopped] }

/-- `loader_do_signal` (loader.c:903-909). -/
def loader_do_signal (s : LoaderState) : Bool :=
  loader_is_application_running s

/-- `loader_do_get_application_name` (loader.c:911-918): the running thread's
name iff a genuine application thread exists. -/
def loader_do_get_application_name (s : LoaderState) : Option String :=
  match s.thread with
  | .appThread n => some n
  | _ => none

/-- `loader_find_external_application_by_name` (loader.c:23-40): search
`FLIPPER_EXTERNAL_APPS` then `FLIPPER_SETTINGS_APPS` by exact name; return
path and flags of the first match. -/
def loader_find_external_application_by_name (env : LoaderEnv)
    (app_name : String) : Option (String × FlipperApplicationFlag) :=
  match env.externalApps.find? (fun a => a.name = app_name) with
  | some a => some (a.path, a.flags)
  | none =>
    match env.settingsApps.find? (fun a => a.name = app_name) with
    | some a => some (a.path, a.flags)
    | none => none

/-- `loader_find_application_by_name_in_list` (loader.c:480-490): first entry
matching by display name or stable identifier. -/
def loader_find_application_by_name_in_list (name : String)
    (list : List FlipperInternalApplication) :
    Option FlipperInternalApplication :=
  list.find? (fun a => a.name = name ∨ a.appid = name)

/-- `loader_find_application_by_name` (loader.c:492-511): ordinary apps, then
system apps, then debug apps; first match wins. -/
def loader_find_application_by_name (env : LoaderEnv) (name : String) :
    Option FlipperInternalApplication :=
  match loader_find_application_by_name_in_list name env.flipperApps with
  | some a => some a
  | none =>
    match loader_find_application_by_name_in_list name env.systemApps with
    | some a => some a
    | none => loader_find_application_by_name_in_list name env.debugApps

/-- `loader_start_internal_app` (loader.c:538-558): publish `BeforeLoad`,
store a copy of non-empty args, allocate the thread named after the entry,
and start it. -/
def loader_start_internal_app (env : LoaderEnv) (s : LoaderState)
    (app : FlipperInternalApplication) (args : Option String) : LoaderState :=
  let s := { s with events := s.events ++ [LoaderEvent.applicationBeforeLoad] }
  let s :=
    match args with
    | some a => if a.length > 0 then { s with args := some a } else s
    | none => s
  let s := { s with thread := .appThread app.name }
  loader_start_app_thread env s app.flags

/-- The "Preload failed" error result shared by the plain preload-failure
branch and the `api_mismatch_bypass_failed` goto target
(loader.c:651-656, 664). -/
def loader_preload_failed_result (env : LoaderEnv) (s : LoaderState)
    (path : String) (preload_res : FlipperApplicationPreloadStatus) :
    StartResult :=
  { value := .errorInternal,
    error := loader_status_error_from_preload_status preload_res,
    message := "Preload failed, " ++ path ++ ": " ++
      env.preloadStatusToString preload_res,
    state := s }

/-- `loader_start_external_app` (loader.c:623-740): publish `BeforeLoad`,
allocate the application object, preload, map, run version arbitration when
the preload flagged an API mismatch, reject plugins, otherwise start the
thread; on any failure free the binary and publish `LoadFailed`. -/
def loader_start_external_app (env : LoaderEnv) (s : LoaderState)
    (path : String) (args : Option String) (flags : FlipperApplicationFlag) :
    StartResult :=
  let s := { s with events := s.events ++ [LoaderEvent.applicationBeforeLoad] }
  let s := { s with fap := some path }
  let preload_res := env.preload path
  let api_mismatch : Bool :=
    preload_res = .apiTooOld ∨ preload_res = .apiTooNew
  let result : StartResult :=
    if ¬ api_mismatch ∧ preload_res ≠ .success then
      loader_preload_failed_result env s path preload_res
    else
      let load_status := env.mapToMemory path
      if load_status ≠ .success then
        if api_mismatch then
          loader_preload_failed_result env s path preload_res
        else
          { value := .errorInternal,
            error := loader_status_error_from_load_status load_status,
            message := "Load failed, " ++ path ++ ": " ++
              env.loadStatusToString load_status,
            state := s }
      else if api_mismatch ∧ ¬ env.dialogContinue then
        { value := .errorAppStarted,
          error := loader_status_error_from_preload_status preload_res,
          message := "Preload failed, " ++ path ++ ": " ++
            env.preloadStatusToString preload_res,
          state := s }
      else if env.isPlugin path then
        { value := .errorInternal,
          error := .unknown,
          message := "Plugin " ++ path ++ " is not runnable",
          state := s }
      else
        let s := { s with thread := .appThread (env.threadName path) }
        let s := loader_start_app_thread env s flags
        { value := .ok, error := .unknown, message := "App started",
          state := s }
  if result.value ≠ .ok then
    let s := { result.state with fap := none }
    { result with
      state := { s with events := s.events ++ [.applicationLoadFailed] } }
  else
    result

/-- `loader_do_applications_show` (loader.c:757-762). -/
def loader_do_applications_show (s : LoaderState) : LoaderState :=
  { s with loaderApplications := true }

/-- The alias rewriting applied by `loader_do_start_by_name`
(loader.c:803-806): `strncmp(name, "Bad USB", strlen("Bad USB"))` rewrites
any name beginning with "Bad USB" to "Bad KB". -/
def loader_alias_name (name : String) : String :=
  if "Bad USB".data.isPrefixOf name.data then "Bad KB" else name

/-- Name after the external-app alias substitution of
`loader_do_start_by_name` (loader.c:826-832): a matched alias replaces the
name by its filesystem path. -/
def loader_subst_name (env : LoaderEnv) (name : String) : String :=
  match loader_find_external_application_by_name env name with
  | some (path, _) => path
  | none => name

/-- `loader_do_start_by_name` (loader.c:775-851): lock check, alias rewrite,
built-in registry lookup, applications-browser check, external-alias
substitution, storage existence check handing off to the external pipeline,
final unknown-app failure. -/
def loader_do_start_by_name (env : LoaderEnv) (s : LoaderState)
    (name : String) (args : Option String) : StartResult :=
  match s.thread with
  | .magicThread =>
    { value := .errorAppStarted, error := .unknown,
      message := "Loader is locked", state := s }
  | .appThread tname =>
    { value := .errorAppStarted, error := .unknown,
      message := "Loader is locked, please close the \"" ++ tname ++
        "\" first",
      state := s }
  | .nullThread =>
    let name := loader_alias_name name
    match loader_find_application_by_name env name with
    | some app =>
      { value := .ok, error := .unknown, message := "App started",
        state := loader_start_internal_app env s app args }
    | none =>
      if name = env.applicationsName then
        { value := .ok, error := .unknown, message := "App started",
          state := loader_do_applications_show s }
      else
        let flags :=
          match loader_find_external_application_by_name env name with
          | some (_, fl) => fl
          | none => FlipperApplicationFlag.default
        let name := loader_subst_name env name
        if name ∈ env.storageFiles then
          loader_start_external_app env s name args flags
        else
          { value := .errorUnknownApp, error := .unknown,
            message := "Application \"" ++ name ++ "\" not found",
            state := s }

/-- An entry of the loader's startup menu list (`MenuApp` in loader_i.h):
display label, icon pointer, executable name/path. -/
structure MenuApp where
  label : String
  icon : Nat
  exe : String
  deriving DecidableEq, Repr

/-- `furi_string_replace_all(line, c, "")` for a one-character pattern:
removes every occurrence of the character (loader.c:432-433). -/
def removeChar (c : Char) (s : String) : String :=
  ⟨s.data.filter (fun d => d ≠ c)⟩

/-- Decimal value of a digit string, as `sscanf`'s `%lu` reads it. -/
def digitsToNat (l : List Char) : Nat :=
  l.foldl (fun n c => n * 10 + (c.toNat - 48)) 0

/-- `sscanf(line, "MenuAppList Version %lu", &version)` (loader.c:417-418):
the literal prefix followed by an unsigned number (trailing text ignored). -/
def parseMenuVersion (line : String) : Option Nat :=
  let pre := "MenuAppList Version ".data
  if pre.isPrefixOf line.data then
    let ds := (line.data.drop pre.length).takeWhile Char.isDigit
    if ds.isEmpty then none else some (digitsToNat ds)
  else none

/-- Lines written by `loader_make_menu_file` (loader.c:365-389) when the menu
file is absent: the version-1 header, every internal app name, every external
app name except the last (the loop bound is `FLIPPER_EXTERNAL_APPS_COUNT - 1`,
assuming at least one external app since `size_t` arithmetic underflows
otherwise), then the raw content of the legacy `xtreme_apps.txt` file. -/
def loader_make_menu_file_lines (env : LoaderEnv) : List String :=
  "MenuAppList Version 1" ::
    (env.flipperApps.map (fun a => a.name) ++
      (env.externalApps.map (fun a => a.name)).dropLast ++
      env.xtremeAppsLines)

/-- Processing of one menu-file line at startup (loader.c:431-468): strip CR
and LF, apply the version-0 renames, then either load external metadata for
an existing storage path or match the internal/external registries by name;
an entry is produced only when label, executable and icon are all present. -/
def loader_menu_read_line (env : LoaderEnv) (version : Nat) (line0 : String) :
    Option MenuApp :=
  let line := removeChar '\n' (removeChar '\r' line0)
  let line :=
    if version = 0 then
      if line = "RFID" then "125 kHz RFID"
      else if line = "SubGHz" then "Sub-GHz"
      else line
    else line
  if line ∈ env.storageFiles then
    match env.fapMeta line with
    | some nm => some { label := nm, icon := 0, exe := line }
    | none => none
  else
    match env.flipperApps.find? (fun a => a.name = line) with
    | some a =>
      match a.icon with
      | some ic => some { label := a.name, icon := ic, exe := a.name }
      | none => none
    | none =>
      match env.externalApps.find? (fun a => a.name = line) with
      | some a =>
        match a.icon with
        | some ic => some { label := a.name, icon := ic, exe := a.name }
        | none => none
      | none => none

/-- The startup menu-read loop of `loader_alloc` (loader.c:431-469). -/
def loader_read_menu_lines (env : LoaderEnv) (version : Nat)
    (lines : List String) : List MenuApp :=
  lines.filterMap (loader_menu_read_line env version)

/-- Reading a whole menu file at startup (loader.c:416-469): parse the
version header, reject versions above 1 (`none` triggers regeneration in the
source), then process each subsequent line. -/
def loader_load_menu (env : LoaderEnv) (fileLines : List String) :
    Option (List MenuApp) :=
  match fileLines with
  | [] => none
  | first :: rest =>
    match parseMenuVersion first with
    | some version =>
      if version > 1 then none
      else some (loader_read_menu_lines env version rest)
    | none => none

/-- The ordered sequence of registry names written into the menu file. -/
def loader_menu_written_names (env : LoaderEnv) : List String :=
  env.flipperApps.map (fun a => a.name) ++
    (env.externalApps.map (fun a => a.name)).dropLast

/-- A small concrete environment used to evaluate theorems on concrete
inputs. -/
def sampleEnv : LoaderEnv :=
  { flipperApps :=
      [{ name := "Bad KB", appid := "bad_kb", icon := some 1,
         flags := { insomniaSafe := false } },
       { name := "Clock", appid := "clock", icon := some 2,
         flags := { insomniaSafe := true } }],
    systemApps := [],
    debugApps := [],
    externalApps :=
      [{ name := "Foo", path := "/ext/apps/foo.fap", icon := some 3,
         flags := FlipperApplicationFlag.default },
       { name := "Bar", path := "/ext/apps/bar.fap", icon := some 4,
         flags := FlipperApplicationFlag.default }],
    settingsApps := [],
    storageFiles := ["/ext/apps/present.fap"],
    applicationsName := "Apps",
    heapTrackMode := 0,
    preload := fun _ => .apiTooOld,
    mapToMemory := fun _ => .success,
    isPlugin := fun _ => false,
    threadName := fun _ => "ExtApp",
    fapMeta := fun _ => none,
    dialogContinue := false,
    xtremeAppsLines := [],
    preloadStatusToString := fun _ => "API version mismatch",
    loadStatusToString := fun _ => "Missing imports" }

/-- A variant environment whose binary is a well-formed plugin. -/
def pluginEnv : LoaderEnv :=
  { sampleEnv with
    storageFiles := ["/ext/apps/plug.fap"],
    preload := fun _ => .success,
    isPlugin := fun _ => true }

/-- A variant environment: preload finds the API too new and mapping then
fails with missing imports. -/
def mapFailEnv : LoaderEnv :=
  { sampleEnv with
    storageFiles := ["/ext/apps/new.fap"],
    preload := fun _ => .apiTooNew,
    mapToMemory := fun _ => .missingImports }

/-- The loader state right after `loader_alloc`: empty slot, no resources. -/
def emptyState : LoaderState :=
  { thread := .nullThread, args := none, insomniac := false, fap := none,
    heapTrace := false, insomniaCount := 0, events := [],
    loaderMenu := false, loaderApplications := false }

/-- A state administratively locked via the magic sentinel. -/
def lockedState : LoaderState :=
  { emptyState with thread := .magicThread }

/-- A state with a genuine application thread running. -/
def runningState : LoaderState :=
  { emptyState with
    thread := .appThread ("Clock"), insomniac := true,
    insomniaCount := 1 }

/-- C1: a start request issued while the Lifecycle Slot is non-Empty returns
`ErrorAppStarted` without changing the state; the message names the running
application when a genuine application thread exists, and is the generic
"Loader is locked" message when the slot holds only the administrative
sentinel. -/
theorem c1_start_while_locked (env : LoaderEnv) (s : LoaderState)
    (name : String) (args : Option String)
    (h : s.thread ≠ ThreadSlot.nullThread) :
    (loader_do_start_by_name env s name args).value = .errorAppStarted ∧
    (loader_do_start_by_name env s name args).state = s ∧
    (s.thread = .magicThread →
      (loader_do_start_by_name env s name args).message = "Loader is locked") ∧
    (∀ tn, s.thread = .appThread tn →
      (loader_do_start_by_name env s name args).message =
        "Loader is locked, please close the \"" ++ tn ++ "\" first") := by
  cases hs : s.thread with
  | nullThread => exact absurd hs h
  | magicThread => simp [loader_do_start_by_name, hs]
  | appThread tn => simp [loader_do_start_by_name, hs]

/-- Witness for C1: concrete administratively locked and running states. -/
theorem c1_start_while_locked_witness :
    (lockedState.thread ≠ ThreadSlot.nullThread ∧
      (loader_do_start_by_name sampleEnv lockedState "Clock" none).message =
        "Loader is locked") ∧
    (runningState.thread ≠ ThreadSlot.nullThread ∧
      (loader_do_start_by_name sampleEnv runningState "Clock" none).message =
        "Loader is locked, please close the \"" ++ "Clock" ++ "\" first") :=
  ⟨⟨by decide,
    (c1_start_while_locked sampleEnv lockedState "Clock" none
      (by decide)).2.2.1 rfl⟩,
   ⟨by decide,
    (c1_start_while_locked sampleEnv runningState "Clock" none
      (by decide)).2.2.2 "Clock" rfl⟩⟩

/-- C2: an external binary whose preload reports the declared API major
version below the supported minimum and whose mapping succeeds, when the
user declines the version-arbitration prompt, fails with outcome
`ErrorAppStarted` (not `ErrorInternal`) and kind `OutdatedApp`; the
partially loaded binary is freed, a `LoadFailed` event is published, and the
slot remains Empty. -/
theorem c2_decline_outdated_app (env : LoaderEnv) (s : LoaderState)
    (path : String) (args : Option String) (flags : FlipperApplicationFlag)
    (hpre : env.preload path = .apiTooOld)
    (hmap : env.mapToMemory path = .success)
    (hdialog : env.dialogContinue = false)
    (hs : s.thread = .nullThread) :
    (loader_start_external_app env s path args flags).value =
      .errorAppStarted ∧
    (loader_start_external_app env s path args flags).value ≠
      .errorInternal ∧
    (loader_start_external_app env s path args flags).error = .outdatedApp ∧
    (loader_start_external_app env s path args flags).state.fap = none ∧
    (loader_start_external_app env s path args flags).state.events =
      s.events ++ [.applicationBeforeLoad, .applicationLoadFailed] ∧
    (loader_start_external_app env s path args flags).state.thread =
      .nullThread := by
  simp [loader_start_external_app, hpre, hmap, hdialog, hs,
    loader_preload_failed_result, loader_status_error_from_preload_status]

/-- Witness for C2: a concrete declining run on a present binary. -/
theorem c2_decline_outdated_app_witness :
    sampleEnv.preload "/ext/apps/present.fap" = .apiTooOld ∧
    sampleEnv.mapToMemory "/ext/apps/present.fap" = .success ∧
    sampleEnv.dialogContinue = false ∧
    emptyState.thread = .nullThread ∧
    (loader_start_external_app sampleEnv emptyState "/ext/apps/present.fap"
        none FlipperApplicationFlag.default).value = .errorAppStarted ∧
    (loader_start_external_app sampleEnv emptyState "/ext/apps/present.fap"
        none FlipperApplicationFlag.default).error = .outdatedApp :=
  ⟨rfl, rfl, rfl, rfl,
   (c2_decline_outdated_app sampleEnv emptyState "/ext/apps/present.fap"
      none FlipperApplicationFlag.default rfl rfl rfl rfl).1,
   (c2_decline_outdated_app sampleEnv emptyState "/ext/apps/present.fap"
      none FlipperApplicationFlag.default rfl rfl rfl rfl).2.2.1⟩

/-- C3: the preload/map failure-category-to-ErrorKind mappings are pure total
functions; each defined failure category maps to exactly the kind of the
spec's table and every other input maps to Unknown. -/
theorem c3_status_error_mapping :
    (loader_status_error_from_preload_status .invalidFile = .invalidFile) ∧
    (loader_status_error_from_preload_status .invalidManifest =
      .invalidManifest) ∧
    (loader_status_error_from_preload_status .notEnoughMemory =
      .outOfMemory) ∧
    (loader_status_error_from_preload_status .apiTooOld = .outdatedApp) ∧
    (loader_status_error_from_preload_status .apiTooNew =
      .outdatedFirmware) ∧
    (loader_status_error_from_preload_status .targetMismatch = .hwMismatch) ∧
    (loader_status_error_from_load_status .missingImports =
      .missingImports) ∧
    (loader_status_error_from_preload_status .success = .unknown) ∧
    (loader_status_error_from_preload_status .unspecifiedError = .unknown) ∧
    (loader_status_error_from_load_status .success = .unknown) ∧
    (loader_status_error_from_load_status .unspecifiedError = .unknown) ∧
    (loader_status_error_from_load_status .noFreeMemory = .unknown) := by
  decide

/-- C4: `lock()` returns true and moves the slot from Empty to the
administrative sentinel iff the slot is Empty; on a non-Empty slot it
returns false and changes nothing; `unlock()` after a successful `lock()`
returns the slot to Empty. -/
theorem c4_lock_unlock (s : LoaderState) :
    (s.thread = .nullThread →
      loader_do_lock s = (true, { s with thread := .magicThread }) ∧
      loader_do_unlock (loader_do_lock s).2 =
        some { s with thread := .nullThread }) ∧
    (s.thread ≠ .nullThread → loader_do_lock s = (false, s)) := by
  constructor
  · intro h
    cases hs : s.thread with
    | nullThread =>
      constructor
      · simp [loader_do_lock, hs]
      · simp [loader_do_lock, loader_do_unlock, hs]
    | magicThread => exact absurd hs (by simp [h])
    | appThread tn => exact absurd hs (by simp [h])
  · intro h
    cases hs : s.thread with
    | nullThread => exact absurd hs h
    | magicThread => simp [loader_do_lock, hs]
    | appThread tn => simp [loader_do_lock, hs]

/-- Witness for C4: lock then unlock from the empty state, and a failing
lock on a running state. -/
theorem c4_lock_unlock_witness :
    (emptyState.thread = .nullThread ∧
      loader_do_lock emptyState =
        (true, { emptyState with thread := .magicThread }) ∧
      loader_do_unlock (loader_do_lock emptyState).2 =
        some { emptyState with thread := .nullThread }) ∧
    (runningState.thread ≠ .nullThread ∧
      loader_do_lock runningState = (false, runningState)) :=
  ⟨⟨rfl, (c4_lock_unlock emptyState).1 rfl⟩,
   ⟨by decide, (c4_lock_unlock runningState).2 (by decide)⟩⟩

/-- C5: activation acquires the sleep-inhibit hold and records ownership iff
the application's flags do not declare insomnia-safe; close releases the
hold iff ownership was recorded; hence the insomnia counter after a close
equals its value before the activation — zero holds remain attributable to
the closed application. -/
theorem c5_insomnia_balance (env : LoaderEnv) (s s' : LoaderState)
    (flags : FlipperApplicationFlag) :
    ((loader_start_app_thread env s flags).insomniac =
      !flags.insomniaSafe) ∧
    ((loader_start_app_thread env s flags).insomniaCount =
      s.insomniaCount + (if flags.insomniaSafe then 0 else 1)) ∧
    ((loader_do_app_closed s').insomniaCount =
      s'.insomniaCount - (if s'.insomniac then 1 else 0)) ∧
    ((loader_do_app_closed
        (loader_start_app_thread env s flags)).insomniaCount =
      s.insomniaCount) := by
  cases hf : flags.insomniaSafe <;> cases hi : s'.insomniac <;>
    simp [loader_start_app_thread, loader_do_app_closed, hf, hi]

/-- C6: a start request for "Bad USB" with the slot Empty is rewritten to
"Bad KB" before any registry lookup — it behaves exactly as a start of
"Bad KB" — and when the registry resolves "Bad KB" to an entry with that
name, the request starts that entry and the slot transitions to Running. -/
theorem c6_bad_usb_alias (env : LoaderEnv) (s : LoaderState)
    (args : Option String) (app : FlipperInternalApplication)
    (hs : s.thread = .nullThread)
    (happ : loader_find_application_by_name env "Bad KB" = some app)
    (hname : app.name = "Bad KB") :
    loader_do_start_by_name env s "Bad USB" args =
      loader_do_start_by_name env s "Bad KB" args ∧
    (loader_do_start_by_name env s "Bad USB" args).value = .ok ∧
    (loader_do_start_by_name env s "Bad USB" args).state.thread =
      .appThread "Bad KB" := by
  have halias : loader_alias_name "Bad USB" = "Bad KB" := by decide
  have halias2 : loader_alias_name "Bad KB" = "Bad KB" := by decide
  refine ⟨?_, ?_, ?_⟩
  · simp [loader_do_start_by_name, hs, halias, halias2]
  · simp [loader_do_start_by_name, hs, halias, happ]
  · simp [loader_do_start_by_name, hs, halias, happ,
      loader_start_internal_app, loader_start_app_thread, hname]
    cases hf : app.flags.insomniaSafe <;> simp [hf]

/-- Witness for C6: the sample registry holds a "Bad KB" entry. -/
theorem c6_bad_usb_alias_witness :
    emptyState.thread = .nullThread ∧
    loader_find_application_by_name sampleEnv "Bad KB" =
      some { name := "Bad KB", appid := "bad_kb", icon := some 1,
             flags := { insomniaSafe := false } } ∧
    (loader_do_start_by_name sampleEnv emptyState "Bad USB" none).value =
      .ok ∧
    (loader_do_start_by_name sampleEnv emptyState "Bad USB" none).state.thread
      = .appThread "Bad KB" :=
  ⟨rfl, by decide,
   (c6_bad_usb_alias sampleEnv emptyState none
      { name := "Bad KB", appid := "bad_kb", icon := some 1,
        flags := { insomniaSafe := false } } rfl (by decide) rfl).2.1,
   (c6_bad_usb_alias sampleEnv emptyState none
      { name := "Bad KB", appid := "bad_kb", icon := some 1,
        flags := { insomniaSafe := false } } rfl (by decide) rfl).2.2⟩

/-- C7 counterexample: the claim fixes the not-found message to the
*requested* name, but when the requested name matches a registered
external-app alias whose path is absent from storage, the source substitutes
the path before building the message.  In `cexEnv` the name "Foo" is such an
alias for "/ext/apps/foo.fap"; the claim's hypotheses hold (no built-in
match, not the applications-browser identifier, substituted path absent),
yet the message names the path, not "Foo". -/
theorem c7_unknown_app_counterexample :
    loader_find_application_by_name sampleEnv
      (loader_alias_name "Foo") = none ∧
    loader_alias_name "Foo" ≠ sampleEnv.applicationsName ∧
    loader_subst_name sampleEnv (loader_alias_name "Foo") ∉
      sampleEnv.storageFiles ∧
    (loader_do_start_by_name sampleEnv emptyState "Foo" none).value =
      .errorUnknownApp ∧
    (loader_do_start_by_name sampleEnv emptyState "Foo" none).message ≠
      "Application \"Foo\" not found" ∧
    (loader_do_start_by_name sampleEnv emptyState "Foo" none).message =
      "Application \"/ext/apps/foo.fap\" not found" := by
  decide

/-- C7 (amended): with the slot Empty, when the alias-rewritten name matches
no built-in registry entry, is not the applications-browser identifier, and
its possibly alias-substituted filesystem path does not exist on storage,
the start returns `ErrorUnknownApp` with the message naming the
alias-rewritten, possibly path-substituted name (which is the requested name
itself whenever no rewrite or substitution applies). -/
theorem c7_unknown_app_message (env : LoaderEnv) (s : LoaderState)
    (name : String) (args : Option String)
    (hs : s.thread = .nullThread)
    (hfind : loader_find_application_by_name env (loader_alias_name name) =
      none)
    (happs : loader_alias_name name ≠ env.applicationsName)
    (hstore : loader_subst_name env (loader_alias_name name) ∉
      env.storageFiles) :
    (loader_do_start_by_name env s name args).value = .errorUnknownApp ∧
    (loader_do_start_by_name env s name args).message =
      "Application \"" ++ loader_subst_name env (loader_alias_name name) ++
        "\" not found" := by
  cases hx : loader_find_external_application_by_name env
      (loader_alias_name name) <;>
    (simp only [loader_subst_name, hx] at hstore;
     simp [loader_do_start_by_name, loader_subst_name, hs, hfind, happs,
       hx, hstore])

/-- Witness for C7 (amended): the spec's own scenario — an unknown name with
no alias involvement yields the message with the requested name. -/
theorem c7_unknown_app_message_witness :
    emptyState.thread = .nullThread ∧
    loader_find_application_by_name sampleEnv
      (loader_alias_name "Nonexistent") = none ∧
    loader_alias_name "Nonexistent" ≠ sampleEnv.applicationsName ∧
    loader_subst_name sampleEnv (loader_alias_name "Nonexistent") ∉
      sampleEnv.storageFiles ∧
    (loader_do_start_by_name sampleEnv emptyState "Nonexistent" none).value =
      .errorUnknownApp ∧
    (loader_do_start_by_name sampleEnv emptyState "Nonexistent" none).message
      = "Application \"Nonexistent\" not found" :=
  ⟨rfl, by decide, by decide, by decide,
   (c7_unknown_app_message sampleEnv emptyState "Nonexistent" none rfl
      (by decide) (by decide) (by decide)).1,
   (c7_unknown_app_message sampleEnv emptyState "Nonexistent" none rfl
      (by decide) (by decide) (by decide)).2⟩

/-- C8: an external binary that preloads and maps successfully but is a
library/plugin rather than an executable fails with `ErrorInternal` and kind
`Unknown`; the message indicates the binary is not runnable and the slot
does not transition to Running. -/
theorem c8_plugin_not_runnable (env : LoaderEnv) (s : LoaderState)
    (path : String) (args : Option String) (flags : FlipperApplicationFlag)
    (hpre : env.preload path = .success)
    (hmap : env.mapToMemory path = .success)
    (hplugin : env.isPlugin path = true)
    (hs : s.thread = .nullThread) :
    (loader_start_external_app env s path args flags).value =
      .errorInternal ∧
    (loader_start_external_app env s path args flags).error = .unknown ∧
    (loader_start_external_app env s path args flags).message =
      "Plugin " ++ path ++ " is not runnable" ∧
    (loader_start_external_app env s path args flags).state.thread =
      .nullThread := by
  simp [loader_start_external_app, hpre, hmap, hplugin, hs]

/-- Witness for C8: a concrete plugin binary on storage. -/
theorem c8_plugin_not_runnable_witness :
    pluginEnv.preload "/ext/apps/plug.fap" = .success ∧
    pluginEnv.mapToMemory "/ext/apps/plug.fap" = .success ∧
    pluginEnv.isPlugin "/ext/apps/plug.fap" = true ∧
    emptyState.thread = .nullThread ∧
    (loader_start_external_app pluginEnv emptyState "/ext/apps/plug.fap"
        none FlipperApplicationFlag.default).value = .errorInternal ∧
    (loader_start_external_app pluginEnv emptyState "/ext/apps/plug.fap"
        none FlipperApplicationFlag.default).message =
      "Plugin " ++ "/ext/apps/plug.fap" ++ " is not runnable" :=
  ⟨rfl, rfl, rfl, rfl,
   (c8_plugin_not_runnable pluginEnv emptyState "/ext/apps/plug.fap" none
      FlipperApplicationFlag.default rfl rfl rfl rfl).1,
   (c8_plugin_not_runnable pluginEnv emptyState "/ext/apps/plug.fap" none
      FlipperApplicationFlag.default rfl rfl rfl rfl).2.2.1⟩

/-- C10: when the preload reports an API major version mismatch (too old or
too new) and the subsequent mapping fails, the bypass goto produces outcome
`ErrorInternal` with the error kind of the preload mismatch (OutdatedApp or
OutdatedFirmware, never MissingImports or the map-failure kind) and the
"Preload failed" message. -/
theorem c10_mismatch_map_failure (env : LoaderEnv) (s : LoaderState)
    (path : String) (args : Option String) (flags : FlipperApplicationFlag)
    (hpre : env.preload path = .apiTooOld ∨ env.preload path = .apiTooNew)
    (hmap : env.mapToMemory path ≠ .success) :
    (loader_start_external_app env s path args flags).value =
      .errorInternal ∧
    (loader_start_external_app env s path args flags).error =
      loader_status_error_from_preload_status (env.preload path) ∧
    ((env.preload path = .apiTooOld →
      (loader_start_external_app env s path args flags).error =
        .outdatedApp) ∧
     (env.preload path = .apiTooNew →
      (loader_start_external_app env s path args flags).error =
        .outdatedFirmware)) ∧
    (loader_start_external_app env s path args flags).error ≠
      .missingImports ∧
    (loader_start_external_app env s path args flags).message =
      "Preload failed, " ++ path ++ ": " ++
        env.preloadStatusToString (env.preload path) := by
  cases hpre with
  | inl h =>
    simp [loader_start_external_app, h, hmap,
      loader_preload_failed_result, loader_status_error_from_preload_status]
  | inr h =>
    simp [loader_start_external_app, h, hmap,
      loader_preload_failed_result, loader_status_error_from_preload_status]

/-- Witness for C10: a too-new binary whose mapping misses imports. -/
theorem c10_mismatch_map_failure_witness :
    (mapFailEnv.preload "/ext/apps/new.fap" = .apiTooOld ∨
      mapFailEnv.preload "/ext/apps/new.fap" = .apiTooNew) ∧
    mapFailEnv.mapToMemory "/ext/apps/new.fap" ≠ .success ∧
    (loader_start_external_app mapFailEnv emptyState "/ext/apps/new.fap"
        none FlipperApplicationFlag.default).value = .errorInternal ∧
    (loader_start_external_app mapFailEnv emptyState "/ext/apps/new.fap"
        none FlipperApplicationFlag.default).error = .outdatedFirmware :=
  ⟨Or.inr rfl, by decide,
   (c10_mismatch_map_failure mapFailEnv emptyState "/ext/apps/new.fap" none
      FlipperApplicationFlag.default (Or.inr rfl) (by decide)).1,
   (c10_mismatch_map_failure mapFailEnv emptyState "/ext/apps/new.fap" none
      FlipperApplicationFlag.default (Or.inr rfl) (by decide)).2.2.1.2 rfl⟩

/-- Helper for the menu round trip: a written registry name, clean of CR/LF,
absent from storage, and present in the internal or external registry with a
non-null icon, is read back as an entry whose label and executable are the
name itself. -/
theorem loader_menu_read_line_of_written (env : LoaderEnv) (n : String)
    (hclean : removeChar '\n' (removeChar '\r' n) = n)
    (hstore : n ∉ env.storageFiles)
    (hmem : (∃ a ∈ env.flipperApps, a.name = n) ∨
      (∃ a ∈ env.externalApps, a.name = n))
    (hicons1 : ∀ a ∈ env.flipperApps, (a.icon).isSome)
    (hicons2 : ∀ a ∈ env.externalApps, (a.icon).isSome) :
    ∃ ic, loader_menu_read_line env 1 n =
      some { label := n, icon := ic, exe := n } := by
  cases hf : env.flipperApps.find? (fun a => a.name = n) with
  | some a =>
    have hpa : a.name = n := by simpa using List.find?_some hf
    have hma : a ∈ env.flipperApps := List.mem_of_find?_eq_some hf
    obtain ⟨ic, hic⟩ := Option.isSome_iff_exists.1 (hicons1 a hma)
    refine ⟨ic, ?_⟩
    unfold loader_menu_read_line
    rw [hclean]
    simp [hstore, hf, hic, hpa]
  | none =>
    have hnone : ∀ a ∈ env.flipperApps, a.name ≠ n := by
      intro a ha
      have := List.find?_eq_none.1 hf a ha
      simpa using this
    have hext : ∃ a ∈ env.externalApps, a.name = n := by
      cases hmem with
      | inl h =>
        obtain ⟨a, ha, han⟩ := h
        exact absurd han (hnone a ha)
      | inr h => exact h
    have hsome : (env.externalApps.find? (fun a => a.name = n)).isSome := by
      rw [List.find?_isSome]
      obtain ⟨a, ha, han⟩ := hext
      exact ⟨a, ha, by simp [han]⟩
    obtain ⟨b, hb⟩ := Option.isSome_iff_exists.1 hsome
    have hpb : b.name = n := by simpa using List.find?_some hb
    have hmb : b ∈ env.externalApps := List.mem_of_find?_eq_some hb
    obtain ⟨ic, hic⟩ := Option.isSome_iff_exists.1 (hicons2 b hmb)
    refine ⟨ic, ?_⟩
    unfold loader_menu_read_line
    rw [hclean]
    simp [hstore, hf, hb, hic, hpb]

/-- Helper for the menu round trip: the read loop over lines that each read
back as themselves reproduces the written sequence. -/
theorem loader_read_menu_lines_roundtrip (env : LoaderEnv) (W : List String)
    (h : ∀ n ∈ W, ∃ ic, loader_menu_read_line env 1 n =
      some { label := n, icon := ic, exe := n }) :
    (loader_read_menu_lines env 1 W).map (fun m => m.exe) = W ∧
    (loader_read_menu_lines env 1 W).map (fun m => m.label) = W := by
  induction W with
  | nil => simp [loader_read_menu_lines]
  | cons n W ih =>
    obtain ⟨ic, hic⟩ := h n (List.mem_cons_self n W)
    have ih' := ih (fun m hm => h m (List.mem_cons_of_mem n hm))
    simp only [loader_read_menu_lines, List.filterMap_cons, hic] at ih' ⊢
    simpa using ih'

/-- C9: writing the application-list file at version 1 — as
`loader_make_menu_file` does when the file is absent or invalid — and
re-reading it at startup yields the identical ordered sequence of menu
entries that was written: same executables in the same order, labelled by
the same names.  (Hypotheses: no legacy extra-apps file, registry names free
of CR/LF and not shadowed by storage paths, registry icons non-null.) -/
theorem c9_menu_roundtrip (env : LoaderEnv)
    (hx : env.xtremeAppsLines = [])
    (hclean : ∀ n ∈ loader_menu_written_names env,
      removeChar '\n' (removeChar '\r' n) = n)
    (hstore : ∀ n ∈ loader_menu_written_names env, n ∉ env.storageFiles)
    (hicons1 : ∀ a ∈ env.flipperApps, (a.icon).isSome)
    (hicons2 : ∀ a ∈ env.externalApps, (a.icon).isSome) :
    ∃ ms, loader_load_menu env (loader_make_menu_file_lines env) = some ms ∧
      ms.map (fun m => m.exe) = loader_menu_written_names env ∧
      ms.map (fun m => m.label) = loader_menu_written_names env := by
  have hmem : ∀ n ∈ loader_menu_written_names env,
      (∃ a ∈ env.flipperApps, a.name = n) ∨
        (∃ a ∈ env.externalApps, a.name = n) := by
    intro n hn
    rw [loader_menu_written_names, List.mem_append] at hn
    cases hn with
    | inl h =>
      obtain ⟨a, ha, rfl⟩ := List.mem_map.1 h
      exact Or.inl ⟨a, ha, rfl⟩
    | inr h =>
      have h' : n ∈ env.externalApps.map (fun a => a.name) :=
        (List.dropLast_sublist _).subset h
      obtain ⟨a, ha, rfl⟩ := List.mem_map.1 h'
      exact Or.inr ⟨a, ha, rfl⟩
  have hread := loader_read_menu_lines_roundtrip env
    (loader_menu_written_names env)
    (fun n hn => loader_menu_read_line_of_written env n (hclean n hn)
      (hstore n hn) (hmem n hn) hicons1 hicons2)
  refine ⟨loader_read_menu_lines env 1 (loader_menu_written_names env),
    ?_, hread.1, hread.2⟩
  have hlines : loader_make_menu_file_lines env =
      "MenuAppList Version 1" :: loader_menu_written_names env := by
    rw [loader_make_menu_file_lines, loader_menu_written_names, hx]
    simp
  have hv : parseMenuVersion "MenuAppList Version 1" = some 1 := by decide
  rw [hlines]
  simp [loader_load_menu, hv]

/-- Witness for C9: the sample registries round-trip concretely. -/
theorem c9_menu_roundtrip_witness :
    sampleEnv.xtremeAppsLines = [] ∧
    (∀ n ∈ loader_menu_written_names sampleEnv,
      removeChar '\n' (removeChar '\r' n) = n) ∧
    (∀ n ∈ loader_menu_written_names sampleEnv,
      n ∉ sampleEnv.storageFiles) ∧
    (∃ ms, loader_load_menu sampleEnv
        (loader_make_menu_file_lines sampleEnv) = some ms ∧
      ms.map (fun m => m.exe) = loader_menu_written_names sampleEnv ∧
      ms.map (fun m => m.label) = loader_menu_written_names sampleEnv) :=
  ⟨rfl, by decide, by decide,
   c9_menu_roundtrip sampleEnv rfl (by decide) (by decide) (by decide)
     (by decide)⟩
